import Mathlib

/-!
Verification of the attendance service in `src/Backend/server.js`.

The embedding models the two helper functions `calculateDuration` and
`determineStatus`, the request handlers for `POST /api/attendance`
(clock-in), `PUT /api/attendance/:employee_id/:date` (clock-out) and
`GET /api/attendance` (listing), and the PostgreSQL store they talk to
(table `attendance`, unique on `(employee_id, date)`, columns typed
`DATE` and `TIME`).  Times and dates are kept as the strings the
JavaScript code manipulates; the store's parsing of date and time
literals is modelled on the canonical `YYYY-MM-DD` / `HH:MM[:SS]`
formats the service traffics in.
-/

/-- Digits of a decimal string folded to a number, as JS `Number` does on
an all-digit string. -/
def natOfDigits (cs : List Char) : Nat :=
  cs.foldl (fun acc c => acc * 10 + (c.toNat - '0'.toNat)) 0

/-- `String.prototype.split(':')`: split a character list at `':'`,
keeping empty fields (JS `"a:".split(':')` is `["a",""]`). -/
def splitColon : List Char → List Char → List (List Char)
  | [], acc => [acc.reverse]
  | c :: rest, acc =>
    if c = ':' then acc.reverse :: splitColon rest [] else splitColon rest (c :: acc)

/-- A JS number that may be `NaN` (also standing for `undefined`, which
behaves like `NaN` in every comparison the code performs). -/
inductive JsNum where
  | nan : JsNum
  | num : Int → JsNum
deriving DecidableEq

/-- JS `Number(s)` on a colon-separated time field: the empty string is
`0`, an all-digit string is its decimal value, anything else is `NaN`. -/
def jsNumberChars : List Char → JsNum
  | [] => JsNum.num 0
  | cs => if cs.all Char.isDigit then JsNum.num (natOfDigits cs) else JsNum.nan

/-- JS `<` against a number literal: false when the left side is `NaN`
or `undefined`. -/
def jslt : JsNum → Int → Bool
  | JsNum.nan, _ => false
  | JsNum.num v, k => v < k

/-- JS `<=` against a number literal: false when the left side is `NaN`
or `undefined`. -/
def jsle : JsNum → Int → Bool
  | JsNum.nan, _ => false
  | JsNum.num v, k => v ≤ k

/-- JS `===` against a number literal: false when the left side is `NaN`
or `undefined`. -/
def jseq : JsNum → Int → Bool
  | JsNum.nan, _ => false
  | JsNum.num v, k => v = k

/-- JS falsiness of an optional string value: `null`/`undefined` and the
empty string are falsy, every other string is truthy. -/
def jsFalsy : Option String → Bool
  | none => true
  | some s => s.isEmpty

/-- `determineStatus` from `server.js`: absent when no clock-in value,
else split on `':'`, map `Number`, destructure `[hours, minutes]` and
compare against the 10:00 cutoff (both late branches of the source are
kept). -/
def determineStatus (clockIn : Option String) : String :=
  if jsFalsy clockIn then "absent"
  else
    let parts := (splitColon (clockIn.getD "").data []).map jsNumberChars
    let hours := parts.getD 0 JsNum.nan
    let minutes := parts.getD 1 JsNum.nan
    if jslt hours 10 || (jseq hours 10 && jsle minutes 0) then "present"
    else if jseq hours 10 && jsle minutes 15 then "late"
    else "late"

/-- One field of a time literal: one or two digits, at most `bound`. -/
def timeField (cs : List Char) (bound : Nat) : Option Nat :=
  if !cs.isEmpty && cs.length ≤ 2 && cs.all Char.isDigit && natOfDigits cs ≤ bound
  then some (natOfDigits cs) else none

/-- Parse a time-of-day literal `HH[:MM[:SS]]` to seconds since
midnight, as both `moment(s, 'HH:mm:ss')` (lenient) and the store's
`TIME` type accept it; `none` is an unparsable literal. -/
def parseTimeSec (s : String) : Option Int :=
  match splitColon s.data [] with
  | [hs] => do
    let h ← timeField hs 23
    pure (3600 * (h : Int))
  | [hs, ms] => do
    let h ← timeField hs 23
    let m ← timeField ms 59
    pure (3600 * (h : Int) + 60 * (m : Int))
  | [hs, ms, ss] => do
    let h ← timeField hs 23
    let m ← timeField ms 59
    let sec ← timeField ss 59
    pure (3600 * (h : Int) + 60 * (m : Int) + (sec : Int))
  | _ => none

/-- `calculateDuration` from `server.js`: the `'0h 0m'` sentinel when
either argument is falsy, otherwise `moment` subtraction —
`Math.floor(duration.asHours())` for the hour part and the (sign
carrying, truncation based) minute component for the minute part; an
unparsable time yields moment's `NaN` rendering. -/
def calculateDuration (clockIn clockOut : Option String) : String :=
  if jsFalsy clockIn || jsFalsy clockOut then "0h 0m"
  else
    match parseTimeSec (clockIn.getD ""), parseTimeSec (clockOut.getD "") with
    | some a, some b =>
      let d : Int := b - a
      let h := d.fdiv 3600
      let m := (d.tdiv 60).tmod 60
      s!"{h}h {m}m"
    | _, _ => "NaNh NaNm"

/-- The three characters after the `ATS0` prefix, when the string has
exactly the shape `ATS0` followed by three further characters. -/
def idTail (s : String) : Option (Char × Char × Char) :=
  match s.data with
  | ['A', 'T', 'S', '0', a, b, c] => some (a, b, c)
  | _ => none

/-- The employee-id test the code performs in both handlers:
`/^ATS0[0-9]{3}$/`. -/
def employeeIdMatch (s : String) : Bool :=
  match idTail s with
  | some (a, b, c) => a.isDigit && b.isDigit && c.isDigit
  | none => false

/-- The identifier pattern the specification states (bit-exact
`^ATS0(?!000)\d{3}$`): written from the spec's words, for comparison
with `employeeIdMatch`. -/
def specIdPattern (s : String) : Bool :=
  match idTail s with
  | some (a, b, c) =>
    a.isDigit && b.isDigit && c.isDigit && !(a = '0' && b = '0' && c = '0')
  | none => false

/-- Days in a month of the proleptic Gregorian calendar. -/
def daysInMonth (y m : Nat) : Nat :=
  if m = 2 then
    if y % 4 = 0 && (y % 100 ≠ 0 || y % 400 = 0) then 29 else 28
  else if m = 4 || m = 6 || m = 9 || m = 11 then 30
  else 31

/-- Well-formed `YYYY-MM-DD` calendar date, as the store's `DATE`
column accepts it. -/
def isValidDate (s : String) : Bool :=
  match s.data with
  | [y1, y2, y3, y4, '-', m1, m2, '-', d1, d2] =>
    if (y1.isDigit && y2.isDigit && y3.isDigit && y4.isDigit &&
        m1.isDigit && m2.isDigit && d1.isDigit && d2.isDigit) then
      let y := natOfDigits [y1, y2, y3, y4]
      let m := natOfDigits [m1, m2]
      let d := natOfDigits [d1, d2]
      1 ≤ m && m ≤ 12 && 1 ≤ d && d ≤ daysInMonth y m
    else false
  | _ => false

/-- A value bound for a `TIME` column: SQL `NULL` always, a string only
when it is a parsable time literal (the driver maps `undefined` to
`NULL`). -/
def pgTimeOK : Option String → Bool
  | none => true
  | some s => (parseTimeSec s).isSome

/-- One row of the `attendance` table (the process-plumbing timestamp
columns are outside the modelled core). -/
structure AttendanceRecord where
  employee_id : String
  date : String
  clock_in : Option String
  clock_out : Option String
  duration : Option String
  status : String
deriving DecidableEq

/-- The attendance table. -/
structure DB where
  rows : List AttendanceRecord
deriving DecidableEq

/-- The empty table. -/
def emptyDB : DB := ⟨[]⟩

/-- `SELECT * FROM attendance WHERE employee_id = $1 AND date = $2`. -/
def findKey (db : DB) (emp date : String) : Option AttendanceRecord :=
  db.rows.find? (fun r => r.employee_id == emp && r.date == date)

/-- The error outcomes of the two mutating handlers: 400 invalid
employee-id, 400 duplicate record, 404 missing record, 400 clock-out
without clock-in, and the generic catch-all 500. -/
inductive ApiError where
  | invalidInput : ApiError
  | conflict : ApiError
  | notFound : ApiError
  | invalidState : ApiError
  | internal : ApiError
deriving DecidableEq

deriving instance DecidableEq for Except

/-- A handler run: the HTTP response, the table afterwards, and how many
storage round-trips were issued. -/
structure HandlerResult where
  response : Except ApiError AttendanceRecord
  db : DB
  storageCalls : Nat
deriving DecidableEq

/-- `POST /api/attendance` from `server.js`.  The existence `SELECT`
reads `dbCheck` and the `INSERT` runs against `dbInsert`; a sequential
request passes the same table twice, while `dbCheck ≠ dbInsert` models a
concurrent writer between the two round-trips.  A malformed date makes
the `SELECT` itself fail, and both a uniqueness violation and a bad time
literal make the `INSERT` fail; each such storage failure lands in the
handler's `catch`, which answers the generic 500. -/
def clockInHandler (dbCheck dbInsert : DB) (employeeId date : String)
    (clockIn : Option String) : HandlerResult :=
  if employeeIdMatch employeeId then
    if isValidDate date then
      match findKey dbCheck employeeId date with
      | some _ => ⟨Except.error ApiError.conflict, dbInsert, 1⟩
      | none =>
        if (findKey dbInsert employeeId date).isSome then
          ⟨Except.error ApiError.internal, dbInsert, 2⟩
        else if pgTimeOK clockIn then
          let r : AttendanceRecord :=
            ⟨employeeId, date, clockIn, none, none, determineStatus clockIn⟩
          ⟨Except.ok r, ⟨dbInsert.rows ++ [r]⟩, 2⟩
        else ⟨Except.error ApiError.internal, dbInsert, 2⟩
    else ⟨Except.error ApiError.internal, dbInsert, 1⟩
  else ⟨Except.error ApiError.invalidInput, dbInsert, 0⟩

/-- `PUT /api/attendance/:employee_id/:date` from `server.js`: validate
the id, fetch the row, reject a missing row or a row without clock-in,
compute the duration, then `UPDATE ... RETURNING *`; a bad time literal
makes the `UPDATE` fail into the generic 500. -/
def clockOutHandler (db : DB) (employee_id date : String)
    (clockOut : Option String) : HandlerResult :=
  if employeeIdMatch employee_id then
    if isValidDate date then
      match findKey db employee_id date with
      | none => ⟨Except.error ApiError.notFound, db, 1⟩
      | some record =>
        if jsFalsy record.clock_in then
          ⟨Except.error ApiError.invalidState, db, 1⟩
        else
          let dur := calculateDuration record.clock_in clockOut
          if pgTimeOK clockOut then
            let updated : AttendanceRecord :=
              { record with clock_out := clockOut, duration := some dur }
            ⟨Except.ok updated,
             ⟨db.rows.map (fun r =>
                if r.employee_id == employee_id && r.date == date then updated else r)⟩,
             2⟩
          else ⟨Except.error ApiError.internal, db, 2⟩
    else ⟨Except.error ApiError.internal, db, 1⟩
  else ⟨Except.error ApiError.invalidInput, db, 0⟩

/-- Every stored row respects the table's column types and check
constraint: the id matches `^ATS0[0-9]{3}$` and the date is a calendar
date. -/
def DBwf (db : DB) : Prop :=
  ∀ r ∈ db.rows, employeeIdMatch r.employee_id = true ∧ isValidDate r.date = true

instance (db : DB) : Decidable (DBwf db) := by
  unfold DBwf; infer_instance

/-- Tables reachable from empty through the two mutating handlers. -/
inductive Reachable : DB → Prop
  | init : Reachable emptyDB
  | stepIn (db : DB) (h : Reachable db) (emp date : String) (t : Option String) :
      Reachable (clockInHandler db db emp date t).db
  | stepOut (db : DB) (h : Reachable db) (emp date : String) (t : Option String) :
      Reachable (clockOutHandler db emp date t).db

/-- Tables reachable when every clock-out request carries a clock-out
time (the clock-in time may still be absent). -/
inductive ReachableGood : DB → Prop
  | init : ReachableGood emptyDB
  | stepIn (db : DB) (h : ReachableGood db) (emp date : String) (t : Option String) :
      ReachableGood (clockInHandler db db emp date t).db
  | stepOut (db : DB) (h : ReachableGood db) (emp date : String) (s : String) :
      ReachableGood (clockOutHandler db emp date (some s)).db

/-- The §3 invariant: `duration` is present iff both `clock_in` and
`clock_out` are. -/
def durInv (db : DB) : Prop :=
  ∀ r ∈ db.rows,
    r.duration.isSome = true ↔ (r.clock_in.isSome = true ∧ r.clock_out.isSome = true)

instance (db : DB) : Decidable (durInv db) := by
  unfold durInv; infer_instance

/-- The `clock_in` column under `ORDER BY clock_in DESC`: SQL `NULL`
sorts as the largest value (PostgreSQL defaults to `NULLS FIRST` for
descending order). -/
def ciTop : Option String → WithTop String
  | none => ⊤
  | some s => (s : WithTop String)

/-- The sort key of `ORDER BY date DESC, clock_in DESC`. -/
def listKey (r : AttendanceRecord) : Lex (String × WithTop String) :=
  toLex (r.date, ciTop r.clock_in)

/-- `a` may legally precede `b` in the query's output: `a`'s key is at
least `b`'s in the lexicographic (date, clock-in) order. -/
def listedBefore (a b : AttendanceRecord) : Prop := listKey b ≤ listKey a

instance : DecidableRel listedBefore :=
  fun a b => inferInstanceAs (Decidable (listKey b ≤ listKey a))

instance : IsTotal AttendanceRecord listedBefore :=
  ⟨fun a b => le_total (listKey b) (listKey a)⟩

instance : IsTrans AttendanceRecord listedBefore :=
  ⟨fun _ _ _ hab hbc => le_trans hbc hab⟩

/-- The rows the `GET /api/attendance` query ranges over: all of them,
or those of one employee when a truthy `employee_id` filter is given. -/
def filterRows (db : DB) (filt : Option String) : List AttendanceRecord :=
  if jsFalsy filt then db.rows
  else db.rows.filter (fun r => r.employee_id == filt.getD "")

/-- What the store guarantees for `SELECT ... ORDER BY date DESC,
clock_in DESC`: the output is some permutation of the selected rows that
is sorted for the two-column key.  Rows tying on both columns are not
ordered further by the query. -/
def validListing (db : DB) (filt : Option String)
    (out : List AttendanceRecord) : Prop :=
  out.Perm (filterRows db filt) ∧ out.Sorted listedBefore

/-- One listing the store may return (ties resolved by input position). -/
def listRecords (db : DB) (filt : Option String) : List AttendanceRecord :=
  List.insertionSort listedBefore (filterRows db filt)

/-- Inversion for `idTail`: a hit pins down the whole string. -/
theorem idTail_eq_data (s : String) (a b c : Char)
    (h : idTail s = some (a, b, c)) :
    s.data = ['A', 'T', 'S', '0', a, b, c] := by
  unfold idTail at h
  split at h
  · next heq =>
    simp only [Option.some.injEq, Prod.mk.injEq] at h
    obtain ⟨h1, h2, h3⟩ := h
    subst h1; subst h2; subst h3
    exact heq
  · exact absurd h (by simp)

/-- The code's pattern accepts exactly the spec's pattern plus the one
string `ATS0000`. -/
theorem employeeIdMatch_eq_spec (s : String) :
    employeeIdMatch s = (specIdPattern s || s == "ATS0000") := by
  by_cases hz : s = "ATS0000"
  · subst hz; decide
  · have hz' : (s == "ATS0000") = false := by
      simpa using hz
    cases h : idTail s with
    | none => simp [employeeIdMatch, specIdPattern, h, hz']
    | some t =>
      obtain ⟨a, b, c⟩ := t
      have hdata : s.data = ['A', 'T', 'S', '0', a, b, c] := idTail_eq_data s a b c h
      have hnz : (a = '0' ∧ b = '0' ∧ c = '0') → False := by
        rintro ⟨rfl, rfl, rfl⟩
        exact hz (String.ext (by rw [hdata]))
      simp only [employeeIdMatch, specIdPattern, h, hz', Bool.or_false]
      by_cases ha : a = '0' <;> by_cases hb : b = '0' <;> by_cases hc : c = '0' <;>
        simp_all

/-- With a well-formed employee id, clock-in never answers the
invalid-id message. -/
theorem clockIn_resp_ne_invalid (dbC dbI : DB) (emp date : String)
    (tIn : Option String) (h : employeeIdMatch emp = true) :
    (clockInHandler dbC dbI emp date tIn).response
      ≠ Except.error ApiError.invalidInput := by
  unfold clockInHandler
  by_cases hd : isValidDate date <;> simp only [h, hd, if_true, if_false]
  · cases hf : findKey dbC emp date with
    | some r => simp
    | none =>
      by_cases hs : (findKey dbI emp date).isSome <;>
        by_cases hp : pgTimeOK tIn <;> simp [hs, hp]
  · simp

/-- With a well-formed employee id, clock-out never answers the
invalid-id message. -/
theorem clockOut_resp_ne_invalid (db : DB) (emp date : String)
    (tOut : Option String) (h : employeeIdMatch emp = true) :
    (clockOutHandler db emp date tOut).response
      ≠ Except.error ApiError.invalidInput := by
  unfold clockOutHandler
  by_cases hd : isValidDate date <;> simp only [h, hd, if_true, if_false]
  · cases hf : findKey db emp date with
    | none => simp
    | some r =>
      by_cases hc : jsFalsy r.clock_in <;>
        by_cases hp : pgTimeOK tOut <;> simp [hc, hp]
  · simp

/-- Claim C1 (amended): both clock-in and clock-out validate the
employee id with the regex `^ATS0[0-9]{3}$` — the spec's pattern plus
the identifier `ATS0000`, which the code also accepts.  A string failing
the code's pattern is rejected with the invalid-input error before any
storage call, and a string matching it is never answered with that
error. -/
theorem C1_employee_id_validation (dbC dbI db2 : DB) (emp date : String)
    (tIn tOut : Option String) :
    employeeIdMatch emp = (specIdPattern emp || emp == "ATS0000")
    ∧ ((clockInHandler dbC dbI emp date tIn).response
          = Except.error ApiError.invalidInput ↔ employeeIdMatch emp = false)
    ∧ ((clockOutHandler db2 emp date tOut).response
          = Except.error ApiError.invalidInput ↔ employeeIdMatch emp = false)
    ∧ (employeeIdMatch emp = false →
        clockInHandler dbC dbI emp date tIn
            = ⟨Except.error ApiError.invalidInput, dbI, 0⟩
        ∧ clockOutHandler db2 emp date tOut
            = ⟨Except.error ApiError.invalidInput, db2, 0⟩) := by
  refine ⟨employeeIdMatch_eq_spec emp, ?_, ?_, ?_⟩
  · by_cases h : employeeIdMatch emp
    · simp [h, clockIn_resp_ne_invalid dbC dbI emp date tIn h]
    · simp only [Bool.not_eq_true] at h
      simp [clockInHandler, h]
  · by_cases h : employeeIdMatch emp
    · simp [h, clockOut_resp_ne_invalid db2 emp date tOut h]
    · simp only [Bool.not_eq_true] at h
      simp [clockOutHandler, h]
  · intro h
    constructor <;> simp [clockInHandler, clockOutHandler, h]

/-- Claim C1 (witness): the id `ATS12` fails the pattern and both
handlers reject it with the invalid-input error and zero storage
calls. -/
theorem C1_employee_id_validation_witness :
    employeeIdMatch "ATS12" = false
    ∧ clockInHandler emptyDB emptyDB "ATS12" "2024-03-01" none
        = ⟨Except.error ApiError.invalidInput, emptyDB, 0⟩
    ∧ clockOutHandler emptyDB "ATS12" "2024-03-01" none
        = ⟨Except.error ApiError.invalidInput, emptyDB, 0⟩ := by
  refine ⟨by decide, ?_, ?_⟩
  · exact ((C1_employee_id_validation emptyDB emptyDB emptyDB "ATS12" "2024-03-01"
      none none).2.2.2 (by decide)).1
  · exact ((C1_employee_id_validation emptyDB emptyDB emptyDB "ATS12" "2024-03-01"
      none none).2.2.2 (by decide)).2

/-- Claim C1 (counterexample): `ATS0000` fails the spec's pattern
`^ATS0(?!000)\d{3}$`, yet clock-in accepts it and creates a record
instead of rejecting it with the invalid-input error. -/
theorem C1_counterexample :
    specIdPattern "ATS0000" = false
    ∧ (clockInHandler emptyDB emptyDB "ATS0000" "2024-03-01"
        (some "09:30")).response
        = Except.ok ⟨"ATS0000", "2024-03-01", some "09:30", none, none, "present"⟩
    ∧ (clockInHandler emptyDB emptyDB "ATS0000" "2024-03-01"
        (some "09:30")).response ≠ Except.error ApiError.invalidInput := by
  refine ⟨by decide, by decide, by decide⟩

/-- A table holding the one record `ATS0123 / 2024-03-01`, clocked in at
09:45 and not yet clocked out. -/
def rowA : AttendanceRecord :=
  ⟨"ATS0123", "2024-03-01", some "09:45:00", none, none, "present"⟩

/-- A one-row table used as a concrete store state. -/
def oneRowDB : DB := ⟨[rowA]⟩

/-- Claim C2 (amended): a second clock-in for a key that the pre-insert
existence check sees always fails with the duplicate-record error,
whatever clock-in time is supplied; but when the duplicate appears only
between the check and the insert, the storage uniqueness violation falls
into the handler's catch-all and is answered as the generic internal
error, not as the duplicate-record error. -/
theorem C2_second_clockIn (db dbC dbI : DB) (emp date : String)
    (tIn : Option String) (r : AttendanceRecord) :
    (DBwf db → findKey db emp date = some r →
        (clockInHandler db db emp date tIn).response
          = Except.error ApiError.conflict)
    ∧ (employeeIdMatch emp = true → isValidDate date = true →
        findKey dbC emp date = none → (findKey dbI emp date).isSome = true →
        (clockInHandler dbC dbI emp date tIn).response
            = Except.error ApiError.internal
        ∧ (clockInHandler dbC dbI emp date tIn).response
            ≠ Except.error ApiError.conflict) := by
  constructor
  · intro hwf hf
    have hmem : r ∈ db.rows := List.mem_of_find?_eq_some hf
    have hpred := List.find?_some hf
    simp only [Bool.and_eq_true, beq_iff_eq] at hpred
    obtain ⟨hre, hrd⟩ := hpred
    obtain ⟨hematch, hdate⟩ := hwf r hmem
    rw [hre] at hematch
    rw [hrd] at hdate
    simp [clockInHandler, hematch, hdate, hf]
  · intro hm hd hC hI
    constructor <;> simp [clockInHandler, hm, hd, hC, hI]

/-- Claim C2 (witness): with the record already stored, a second
clock-in at 10:30 is answered with the duplicate-record error; with the
record appearing only after the existence check, it is answered with the
generic internal error. -/
theorem C2_second_clockIn_witness :
    (clockInHandler oneRowDB oneRowDB "ATS0123" "2024-03-01"
        (some "10:30")).response = Except.error ApiError.conflict
    ∧ (clockInHandler emptyDB oneRowDB "ATS0123" "2024-03-01"
        (some "10:30")).response = Except.error ApiError.internal := by
  constructor
  · exact (C2_second_clockIn oneRowDB emptyDB oneRowDB "ATS0123" "2024-03-01"
      (some "10:30") rowA).1 (by decide) (by decide)
  · exact ((C2_second_clockIn oneRowDB emptyDB oneRowDB "ATS0123" "2024-03-01"
      (some "10:30") rowA).2 (by decide) (by decide) (by decide) (by decide)).1

/-- Claim C2 (counterexample): a duplicate that surfaces as the storage
uniqueness violation after the pre-check passed is answered with the
generic internal error, not translated into the duplicate-record
(Conflict) outcome the claim states. -/
theorem C2_counterexample :
    (clockInHandler emptyDB oneRowDB "ATS0123" "2024-03-01"
        (some "10:30")).response = Except.error ApiError.internal
    ∧ (clockInHandler emptyDB oneRowDB "ATS0123" "2024-03-01"
        (some "10:30")).response ≠ Except.error ApiError.conflict := by
  exact ⟨by decide, by decide⟩

/-- Claim C3 (amended): clock-in performs no date validation of its own:
with a well-formed employee id and a malformed date the existence query
is still issued (one storage call) and its failure is answered with the
generic internal error rather than the invalid-input error. -/
theorem C3_no_date_validation (dbC dbI : DB) (emp date : String)
    (tIn : Option String) (hm : employeeIdMatch emp = true)
    (hd : isValidDate date = false) :
    clockInHandler dbC dbI emp date tIn
      = ⟨Except.error ApiError.internal, dbI, 1⟩ := by
  simp [clockInHandler, hm, hd]

/-- Claim C3 (witness): the malformed date `2024-13-99` reaches the
store and produces the generic internal error. -/
theorem C3_no_date_validation_witness :
    employeeIdMatch "ATS0123" = true
    ∧ isValidDate "2024-13-99" = false
    ∧ clockInHandler emptyDB emptyDB "ATS0123" "2024-13-99" (some "09:00")
        = ⟨Except.error ApiError.internal, emptyDB, 1⟩ :=
  ⟨by decide, by decide,
    C3_no_date_validation emptyDB emptyDB "ATS0123" "2024-13-99" (some "09:00")
      (by decide) (by decide)⟩

/-- Claim C3 (counterexample): for the malformed date `2024-13-99`
clock-in does not answer the invalid-input error and does issue a
storage call, contradicting detect-and-report-before-storage. -/
theorem C3_counterexample :
    isValidDate "2024-13-99" = false
    ∧ (clockInHandler emptyDB emptyDB "ATS0123" "2024-13-99"
        (some "09:00")).response ≠ Except.error ApiError.invalidInput
    ∧ (clockInHandler emptyDB emptyDB "ATS0123" "2024-13-99"
        (some "09:00")).storageCalls ≠ 0 := by
  refine ⟨by decide, by decide, by decide⟩

/-- The hour and minute fields the classifier reads: the first two
colon-separated fields of the string, when both are nonempty digit
runs. -/
def timeHM (s : String) : Option (Nat × Nat) :=
  match splitColon s.data [] with
  | hs :: ms :: _ =>
    if !hs.isEmpty && hs.all Char.isDigit && !ms.isEmpty && ms.all Char.isDigit
    then some (natOfDigits hs, natOfDigits ms) else none
  | _ => none

/-- Claim C4 (amended): the classifier is pure and works at minute
granularity, ignoring any seconds field: no clock-in is absent; a
clock-in whose hour is before 10, or whose hour is 10 with minute 0
(i.e. anything from 10:00:00 through 10:00:59), is present; every other
parsed clock-in is late, with no upper bound; all six listed examples
hold. -/
theorem C4_classify (s : String) (h m : Nat) (hp : timeHM s = some (h, m)) :
    determineStatus none = "absent"
    ∧ determineStatus (some s)
        = (if h < 10 ∨ (h = 10 ∧ m = 0) then "present" else "late")
    ∧ determineStatus (some "09:59") = "present"
    ∧ determineStatus (some "10:00") = "present"
    ∧ determineStatus (some "10:01") = "late"
    ∧ determineStatus (some "10:15") = "late"
    ∧ determineStatus (some "14:00") = "late" := by
  refine ⟨by decide, ?_, by decide, by decide, by decide, by decide, by decide⟩
  unfold timeHM at hp
  split at hp
  case h_1 hs ms rest heq =>
    split at hp
    case isTrue hcond =>
      simp only [Option.some.injEq, Prod.mk.injEq] at hp
      obtain ⟨hh, hmm⟩ := hp
      subst hh; subst hmm
      simp only [Bool.and_eq_true, Bool.not_eq_true'] at hcond
      obtain ⟨⟨⟨hsne, hsd⟩, msne⟩, msd⟩ := hcond
      have hse : s.isEmpty = false := by
        cases hemp : s.isEmpty
        · rfl
        · exfalso
          have hs0 : s = "" := (String.isEmpty_iff s).mp hemp
          rw [hs0] at heq
          simp [splitColon] at heq
      have hjs : jsNumberChars hs = JsNum.num ((natOfDigits hs : Int)) := by
        cases hs with
        | nil => simp at hsne
        | cons c cs => simp only [jsNumberChars, hsd, if_true]
      have mjs : jsNumberChars ms = JsNum.num ((natOfDigits ms : Int)) := by
        cases ms with
        | nil => simp at msne
        | cons c cs => simp only [jsNumberChars, msd, if_true]
      have e1 : ((natOfDigits hs : Int) < 10) ↔ natOfDigits hs < 10 := by omega
      have e2 : ((natOfDigits hs : Int) = 10) ↔ natOfDigits hs = 10 := by omega
      have e3 : ((natOfDigits ms : Int) ≤ 0) ↔ natOfDigits ms = 0 := by omega
      unfold determineStatus
      simp only [jsFalsy, hse, Bool.false_eq_true, if_false, Option.getD_some, heq,
        List.map_cons, List.getD_cons_zero, List.getD_cons_succ, hjs, mjs,
        jslt, jseq, jsle]
      simp only [show decide ((natOfDigits hs : Int) < 10)
          = decide (natOfDigits hs < 10) from decide_eq_decide.mpr e1,
        show decide ((natOfDigits hs : Int) = 10)
          = decide (natOfDigits hs = 10) from decide_eq_decide.mpr e2,
        show decide ((natOfDigits ms : Int) ≤ 0)
          = decide (natOfDigits ms = 0) from decide_eq_decide.mpr e3]
      by_cases hP : natOfDigits hs < 10 ∨ (natOfDigits hs = 10 ∧ natOfDigits ms = 0) <;>
        simp [hP]
    case isFalse => exact absurd hp (by simp)
  case h_2 => exact absurd hp (by simp)

/-- Claim C4 (witness): the classifier on `09:59` (hour 9, minute 59)
realises the amended rule. -/
theorem C4_classify_witness :
    timeHM "09:59" = some (9, 59)
    ∧ (determineStatus none = "absent"
       ∧ determineStatus (some "09:59")
           = (if 9 < 10 ∨ (9 = 10 ∧ 59 = 0) then "present" else "late")
       ∧ determineStatus (some "09:59") = "present"
       ∧ determineStatus (some "10:00") = "present"
       ∧ determineStatus (some "10:01") = "late"
       ∧ determineStatus (some "10:15") = "late"
       ∧ determineStatus (some "14:00") = "late") :=
  ⟨by decide, C4_classify "09:59" 9 59 (by decide)⟩

/-- Claim C4 (counterexample): `10:00:30` is strictly after 10:00:00,
yet the classifier answers present, because it reads only the hour and
minute fields. -/
theorem C4_counterexample :
    parseTimeSec "10:00:30" = some 36030
    ∧ (36000 : Int) < 36030
    ∧ determineStatus (some "10:00:30") = "present"
    ∧ determineStatus (some "10:00:30") ≠ "late" := by
  refine ⟨by decide, by decide, by decide, by decide⟩

/-- The output format the specification claims for present inputs:
elapsed time truncated to whole minutes, hours floored, minutes the
remainder left over after the floored hours. -/
def claimedDuration (a b : Int) : String :=
  let dm := (b - a).tdiv 60
  let H := dm.fdiv 60
  let M := dm - 60 * H
  s!"{H}h {M}m"

/-- A parsed time literal is never the empty string. -/
theorem parse_ne_empty (s : String) (v : Int) (hp : parseTimeSec s = some v) :
    s.isEmpty = false := by
  cases hemp : s.isEmpty
  · rfl
  · exfalso
    rw [(String.isEmpty_iff s).mp hemp] at hp
    rw [show parseTimeSec "" = none from rfl] at hp
    exact Option.noConfusion hp

/-- Claim C5 (amended): either argument absent yields the `0h 0m`
sentinel; for parsed times with clock-out at or after clock-in the
result is exactly the claimed `<H>h <M>m` with floored hours and a
minute remainder in 0–59; both cited examples hold.  (When clock-out is
earlier the code instead prints a negative hour part and a nonpositive
minute part.) -/
theorem C5_duration (i o : String) (a b : Int)
    (hi : parseTimeSec i = some a) (ho : parseTimeSec o = some b)
    (hle : a ≤ b) :
    calculateDuration none (some o) = "0h 0m"
    ∧ calculateDuration (some i) none = "0h 0m"
    ∧ calculateDuration (some i) (some o) = claimedDuration a b
    ∧ 0 ≤ (b - a).tdiv 60 - 60 * ((b - a).tdiv 60).fdiv 60
    ∧ (b - a).tdiv 60 - 60 * ((b - a).tdiv 60).fdiv 60 < 60
    ∧ calculateDuration (some "09:00") (some "09:00") = "0h 0m"
    ∧ calculateDuration (some "09:00") (some "17:30") = "8h 30m" := by
  have hine : i.isEmpty = false := parse_ne_empty i a hi
  have hone : o.isEmpty = false := parse_ne_empty o b ho
  have hd : (0 : Int) ≤ b - a := by omega
  have ht : (b - a).tdiv 60 = (b - a) / 60 := Int.tdiv_eq_ediv hd (by norm_num)
  have hq : (0 : Int) ≤ (b - a) / 60 := Int.ediv_nonneg hd (by norm_num)
  have e1 : (b - a).fdiv 3600 = ((b - a).tdiv 60).fdiv 60 := by
    rw [Int.fdiv_eq_ediv _ (by norm_num), ht, Int.fdiv_eq_ediv _ (by norm_num)]
    omega
  have e2 : ((b - a).tdiv 60).tmod 60
      = (b - a).tdiv 60 - 60 * ((b - a).tdiv 60).fdiv 60 := by
    rw [ht, Int.tmod_eq_emod hq (by norm_num), Int.fdiv_eq_ediv _ (by norm_num)]
    omega
  refine ⟨by simp [calculateDuration, jsFalsy], by simp [calculateDuration, jsFalsy],
    ?_, ?_, ?_, by decide, by decide⟩
  · simp only [calculateDuration, claimedDuration, jsFalsy, hine, hone,
      Bool.or_self, Bool.false_eq_true, if_false, Option.getD_some, hi, ho]
    rw [e1, e2]
  · rw [ht, Int.fdiv_eq_ediv _ (by norm_num)]
    omega
  · rw [ht, Int.fdiv_eq_ediv _ (by norm_num)]
    omega

/-- Claim C5 (witness): a 09:00 clock-in and 17:30 clock-out realise the
amended statement with 8 hours 30 minutes. -/
theorem C5_duration_witness :
    parseTimeSec "09:00" = some 32400
    ∧ parseTimeSec "17:30" = some 63000
    ∧ (32400 : Int) ≤ 63000
    ∧ (calculateDuration none (some "17:30") = "0h 0m"
       ∧ calculateDuration (some "09:00") none = "0h 0m"
       ∧ calculateDuration (some "09:00") (some "17:30")
           = claimedDuration 32400 63000
       ∧ 0 ≤ ((63000 : Int) - 32400).tdiv 60
             - 60 * (((63000 : Int) - 32400).tdiv 60).fdiv 60
       ∧ ((63000 : Int) - 32400).tdiv 60
             - 60 * (((63000 : Int) - 32400).tdiv 60).fdiv 60 < 60
       ∧ calculateDuration (some "09:00") (some "09:00") = "0h 0m"
       ∧ calculateDuration (some "09:00") (some "17:30") = "8h 30m") :=
  ⟨by decide, by decide, by decide,
    C5_duration "09:00" "17:30" 32400 63000 (by decide) (by decide) (by decide)⟩

/-- Claim C5 (counterexample): with clock-out before clock-in the code
prints `-9h -30m`, whose minute part is not the claimed remainder in
0–59 (the claimed format would give `-9h 30m`). -/
theorem C5_counterexample :
    parseTimeSec "17:30" = some 63000
    ∧ parseTimeSec "09:00" = some 32400
    ∧ calculateDuration (some "17:30") (some "09:00") = "-9h -30m"
    ∧ claimedDuration 63000 32400 = "-9h 30m"
    ∧ calculateDuration (some "17:30") (some "09:00")
        ≠ claimedDuration 63000 32400 := by
  refine ⟨by decide, by decide, by decide, by decide, by decide⟩

/-- Claim C6: with a well-formed key, clock-out answers the 404
not-found error when no row exists, the cannot-clock-out error when the
row has no clock-in, and succeeds — setting the duration — only when a
row with a clock-in exists. -/
theorem C6_clockOut_cases (db : DB) (emp date : String) (t : Option String)
    (hemp : employeeIdMatch emp = true) (hdate : isValidDate date = true) :
    (findKey db emp date = none →
        clockOutHandler db emp date t = ⟨Except.error ApiError.notFound, db, 1⟩)
    ∧ (∀ r, findKey db emp date = some r → jsFalsy r.clock_in = true →
        clockOutHandler db emp date t
          = ⟨Except.error ApiError.invalidState, db, 1⟩)
    ∧ (∀ rec, (clockOutHandler db emp date t).response = Except.ok rec →
        ∃ r, findKey db emp date = some r ∧ jsFalsy r.clock_in = false
          ∧ rec.duration = some (calculateDuration r.clock_in t)) := by
  refine ⟨?_, ?_, ?_⟩
  · intro hf
    simp [clockOutHandler, hemp, hdate, hf]
  · intro r hf hci
    simp [clockOutHandler, hemp, hdate, hf, hci]
  · intro rec hok
    unfold clockOutHandler at hok
    simp only [hemp, hdate, if_true] at hok
    cases hf : findKey db emp date with
    | none => rw [hf] at hok; simp at hok
    | some r =>
      rw [hf] at hok
      cases hci : jsFalsy r.clock_in with
      | true => simp [hci] at hok
      | false =>
        simp only [hci, Bool.false_eq_true, if_false] at hok
        cases hp : pgTimeOK t with
        | false => simp [hp] at hok
        | true =>
          simp only [hp, if_true] at hok
          refine ⟨r, rfl, hci, ?_⟩
          have := (Except.ok.injEq _ _).mp hok
          rw [← this]

/-- Claim C6 (witness): on the one-row table, the three cases hold for
the key `ATS0123 / 2024-03-01` with a 17:15 clock-out. -/
theorem C6_clockOut_cases_witness :
    employeeIdMatch "ATS0123" = true
    ∧ isValidDate "2024-03-01" = true
    ∧ ((findKey oneRowDB "ATS0123" "2024-03-01" = none →
          clockOutHandler oneRowDB "ATS0123" "2024-03-01" (some "17:15")
            = ⟨Except.error ApiError.notFound, oneRowDB, 1⟩)
       ∧ (∀ r, findKey oneRowDB "ATS0123" "2024-03-01" = some r →
            jsFalsy r.clock_in = true →
            clockOutHandler oneRowDB "ATS0123" "2024-03-01" (some "17:15")
              = ⟨Except.error ApiError.invalidState, oneRowDB, 1⟩)
       ∧ (∀ rec, (clockOutHandler oneRowDB "ATS0123" "2024-03-01"
            (some "17:15")).response = Except.ok rec →
            ∃ r, findKey oneRowDB "ATS0123" "2024-03-01" = some r
              ∧ jsFalsy r.clock_in = false
              ∧ rec.duration
                  = some (calculateDuration r.clock_in (some "17:15")))) :=
  ⟨by decide, by decide,
    C6_clockOut_cases oneRowDB "ATS0123" "2024-03-01" (some "17:15")
      (by decide) (by decide)⟩

/-- Claim C7: a successful clock-out changes only the row's clock-out
and duration: the stored row it updates keeps its employee id, date,
clock-in and status, and no other row of the table is touched. -/
theorem C7_clockOut_frame (db : DB) (emp date : String) (t : Option String)
    (rec : AttendanceRecord)
    (hok : (clockOutHandler db emp date t).response = Except.ok rec) :
    ∃ r, findKey db emp date = some r
      ∧ rec.employee_id = r.employee_id ∧ rec.date = r.date
      ∧ rec.clock_in = r.clock_in ∧ rec.status = r.status
      ∧ rec.clock_out = t
      ∧ rec.duration = some (calculateDuration r.clock_in t)
      ∧ (clockOutHandler db emp date t).db.rows
          = db.rows.map (fun x =>
              if x.employee_id == emp && x.date == date then rec else x) := by
  unfold clockOutHandler at hok ⊢
  cases hemp : employeeIdMatch emp with
  | false => rw [hemp] at hok; simp at hok
  | true =>
    rw [hemp] at hok
    cases hdate : isValidDate date with
    | false => simp [hdate] at hok
    | true =>
      simp only [hdate, if_true] at hok
      cases hf : findKey db emp date with
      | none => rw [hf] at hok; simp at hok
      | some r =>
        rw [hf] at hok
        cases hci : jsFalsy r.clock_in with
        | true => simp [hci] at hok
        | false =>
          simp only [hci, Bool.false_eq_true, if_false] at hok
          cases hp : pgTimeOK t with
          | false => simp [hp] at hok
          | true =>
            simp only [hp, if_true] at hok
            have hrec := (Except.ok.injEq _ _).mp hok
            refine ⟨r, rfl, ?_, ?_, ?_, ?_, ?_, ?_, ?_⟩ <;>
              simp [hemp, hdate, hf, hci, hp, ← hrec]

/-- Claim C7 (witness): clocking out the stored `ATS0123` row at 17:15
keeps its identity, clock-in and status, and updates only that row. -/
theorem C7_clockOut_frame_witness :
    (clockOutHandler oneRowDB "ATS0123" "2024-03-01" (some "17:15")).response
      = Except.ok ⟨"ATS0123", "2024-03-01", some "09:45:00", some "17:15",
          some "7h 30m", "present"⟩
    ∧ ∃ r, findKey oneRowDB "ATS0123" "2024-03-01" = some r
      ∧ (⟨"ATS0123", "2024-03-01", some "09:45:00", some "17:15",
            some "7h 30m", "present"⟩ : AttendanceRecord).employee_id
          = r.employee_id
      ∧ (⟨"ATS0123", "2024-03-01", some "09:45:00", some "17:15",
            some "7h 30m", "present"⟩ : AttendanceRecord).date = r.date
      ∧ (⟨"ATS0123", "2024-03-01", some "09:45:00", some "17:15",
            some "7h 30m", "present"⟩ : AttendanceRecord).clock_in = r.clock_in
      ∧ (⟨"ATS0123", "2024-03-01", some "09:45:00", some "17:15",
            some "7h 30m", "present"⟩ : AttendanceRecord).status = r.status
      ∧ (⟨"ATS0123", "2024-03-01", some "09:45:00", some "17:15",
            some "7h 30m", "present"⟩ : AttendanceRecord).clock_out
          = some "17:15"
      ∧ (⟨"ATS0123", "2024-03-01", some "09:45:00", some "17:15",
            some "7h 30m", "present"⟩ : AttendanceRecord).duration
          = some (calculateDuration r.clock_in (some "17:15"))
      ∧ (clockOutHandler oneRowDB "ATS0123" "2024-03-01" (some "17:15")).db.rows
          = oneRowDB.rows.map (fun x =>
              if x.employee_id == "ATS0123" && x.date == "2024-03-01"
              then ⟨"ATS0123", "2024-03-01", some "09:45:00", some "17:15",
                  some "7h 30m", "present"⟩
              else x) :=
  ⟨by decide,
    C7_clockOut_frame oneRowDB "ATS0123" "2024-03-01" (some "17:15")
      ⟨"ATS0123", "2024-03-01", some "09:45:00", some "17:15",
        some "7h 30m", "present"⟩ (by decide)⟩

/-- The table after a clock-in is either unchanged or has exactly the
new row — clock-in set to the argument, clock-out and duration absent —
appended. -/
theorem clockIn_db_cases (dbC dbI : DB) (emp date : String)
    (t : Option String) :
    (clockInHandler dbC dbI emp date t).db = dbI
    ∨ (clockInHandler dbC dbI emp date t).db
        = ⟨dbI.rows ++ [⟨emp, date, t, none, none, determineStatus t⟩]⟩ := by
  unfold clockInHandler
  cases hemp : employeeIdMatch emp with
  | false => left; rfl
  | true =>
    cases hdate : isValidDate date with
    | false => left; rfl
    | true =>
      simp only [if_true]
      cases hf : findKey dbC emp date with
      | some r => left; rfl
      | none =>
        cases hs : (findKey dbI emp date).isSome with
        | true => left; simp [hs]
        | false =>
          cases hp : pgTimeOK t with
          | false => left; simp [hs, hp]
          | true => right; simp [hs, hp]

/-- The table after a clock-out is either unchanged or has the found row
— which had a clock-in — replaced by that row with its clock-out set to
the argument and its duration set. -/
theorem clockOut_db_cases (db : DB) (emp date : String) (t : Option String) :
    (clockOutHandler db emp date t).db = db
    ∨ ∃ r, findKey db emp date = some r ∧ jsFalsy r.clock_in = false
        ∧ (clockOutHandler db emp date t).db.rows
            = db.rows.map (fun x =>
                if x.employee_id == emp && x.date == date
                then { r with
                        clock_out := t,
                        duration := some (calculateDuration r.clock_in t) }
                else x) := by
  unfold clockOutHandler
  cases hemp : employeeIdMatch emp with
  | false => left; rfl
  | true =>
    cases hdate : isValidDate date with
    | false => left; rfl
    | true =>
      simp only [if_true]
      cases hf : findKey db emp date with
      | none => left; rfl
      | some r =>
        cases hci : jsFalsy r.clock_in with
        | true => left; simp [hci]
        | false =>
          cases hp : pgTimeOK t with
          | false => left; simp [hci, hp]
          | true =>
            right
            exact ⟨r, rfl, hci, by simp [hci, hp]⟩

/-- Claim C8 (amended): along every trace in which each clock-out
request supplies a clock-out time, all stored rows satisfy the
invariant — duration present iff clock-in and clock-out both present.
Clock-in alone always creates rows with clock-out and duration absent;
only a clock-out with an absent time can break the invariant. -/
theorem C8_duration_invariant (db : DB) (h : ReachableGood db) : durInv db := by
  induction h with
  | init => intro r hr; simp [emptyDB] at hr
  | stepIn db hdb emp date t ih =>
    rcases clockIn_db_cases db db emp date t with hcase | hcase
    · rw [hcase]; exact ih
    · rw [hcase]
      intro r hr
      simp only [List.mem_append, List.mem_singleton] at hr
      rcases hr with hr | hr
      · exact ih r hr
      · subst hr; simp
  | stepOut db hdb emp date s ih =>
    rcases clockOut_db_cases db emp date (some s) with hcase | hcase
    · rw [hcase]; exact ih
    · obtain ⟨r0, hf, hci, hrows⟩ := hcase
      intro r hr
      rw [hrows] at hr
      obtain ⟨x, hx, hxr⟩ := List.mem_map.mp hr
      by_cases hkey : (x.employee_id == emp && x.date == date) = true
      · rw [if_pos hkey] at hxr
        subst hxr
        have : r0.clock_in.isSome = true := by
          cases hcin : r0.clock_in with
          | none => rw [hcin] at hci; simp [jsFalsy] at hci
          | some v => rfl
        simp [this]
      · rw [if_neg hkey] at hxr
        subst hxr
        exact ih x hx

/-- Claim C8 (witness): the good trace clock-in 09:45, clock-out 17:15
for `ATS0123 / 2024-03-01` yields a table satisfying the invariant. -/
theorem C8_duration_invariant_witness :
    durInv ⟨[⟨"ATS0123", "2024-03-01", some "09:45:00", some "17:15",
        some "7h 30m", "present"⟩]⟩ := by
  have h1 : ReachableGood (clockInHandler emptyDB emptyDB "ATS0123"
      "2024-03-01" (some "09:45:00")).db :=
    ReachableGood.stepIn emptyDB ReachableGood.init "ATS0123" "2024-03-01"
      (some "09:45:00")
  have h2 : ReachableGood (clockOutHandler (clockInHandler emptyDB emptyDB
      "ATS0123" "2024-03-01" (some "09:45:00")).db "ATS0123" "2024-03-01"
      (some "17:15")).db :=
    ReachableGood.stepOut _ h1 "ATS0123" "2024-03-01" "17:15"
  have h3 := C8_duration_invariant _ h2
  have e : (clockOutHandler (clockInHandler emptyDB emptyDB "ATS0123"
      "2024-03-01" (some "09:45:00")).db "ATS0123" "2024-03-01"
      (some "17:15")).db
      = ⟨[⟨"ATS0123", "2024-03-01", some "09:45:00", some "17:15",
          some "7h 30m", "present"⟩]⟩ := by decide
  rw [e] at h3
  exact h3

/-- Claim C8 (counterexample): clock-in at 09:45 followed by a clock-out
request carrying no time reaches a table whose row has duration
`0h 0m` present while clock-out is absent — the invariant fails on a
reachable state. -/
theorem C8_counterexample :
    Reachable ⟨[⟨"ATS0123", "2024-03-01", some "09:45:00", none,
        some "0h 0m", "present"⟩]⟩
    ∧ ¬ durInv ⟨[⟨"ATS0123", "2024-03-01", some "09:45:00", none,
        some "0h 0m", "present"⟩]⟩ := by
  constructor
  · have h1 : Reachable (clockInHandler emptyDB emptyDB "ATS0123"
        "2024-03-01" (some "09:45:00")).db :=
      Reachable.stepIn emptyDB Reachable.init "ATS0123" "2024-03-01"
        (some "09:45:00")
    have h2 := Reachable.stepOut _ h1 "ATS0123" "2024-03-01" none
    have e : (clockOutHandler (clockInHandler emptyDB emptyDB "ATS0123"
        "2024-03-01" (some "09:45:00")).db "ATS0123" "2024-03-01" none).db
        = ⟨[⟨"ATS0123", "2024-03-01", some "09:45:00", none,
            some "0h 0m", "present"⟩]⟩ := by decide
    rw [e] at h2
    exact h2
  · decide

/-- Claim C9 (amended): the listing is some order of the selected rows
sorted by date descending then clock-in descending — `listedBefore`
holds between neighbours exactly when the later row's key is no larger —
but rows tying on both columns are in no specified relative order. -/
theorem C9_listing (db : DB) (filt : Option String) :
    validListing db filt (listRecords db filt)
    ∧ (∀ a b : AttendanceRecord, listedBefore a b ↔
        (b.date < a.date
         ∨ (b.date = a.date ∧ ciTop b.clock_in ≤ ciTop a.clock_in))) := by
  constructor
  · exact ⟨List.perm_insertionSort listedBefore (filterRows db filt),
      List.sorted_insertionSort listedBefore (filterRows db filt)⟩
  · intro a b
    exact Prod.Lex.le_iff (b.date, ciTop b.clock_in) (a.date, ciTop a.clock_in)

/-- A row tying with `rowT2` on date and clock-in under another id. -/
def rowT1 : AttendanceRecord :=
  ⟨"ATS0001", "2024-03-01", some "09:00:00", none, none, "present"⟩

/-- A row tying with `rowT1` on date and clock-in under another id. -/
def rowT2 : AttendanceRecord :=
  ⟨"ATS0002", "2024-03-01", some "09:00:00", none, none, "present"⟩

/-- Claim C9 (counterexample): two rows tying on date and clock-in admit
two different orders both satisfying the query's ordering contract, so
two calls over the same stored data need not return identical order. -/
theorem C9_counterexample :
    validListing ⟨[rowT1, rowT2]⟩ none [rowT1, rowT2]
    ∧ validListing ⟨[rowT1, rowT2]⟩ none [rowT2, rowT1]
    ∧ ([rowT1, rowT2] : List AttendanceRecord) ≠ [rowT2, rowT1] := by
  have hkey : listKey rowT1 = listKey rowT2 := rfl
  refine ⟨⟨List.Perm.refl _, ?_⟩, ⟨List.Perm.swap rowT1 rowT2 [], ?_⟩, by decide⟩
  · refine List.pairwise_cons.mpr ⟨?_, List.pairwise_singleton _ _⟩
    intro b hb
    rw [List.mem_singleton] at hb
    subst hb
    exact le_of_eq hkey.symm
  · refine List.pairwise_cons.mpr ⟨?_, List.pairwise_singleton _ _⟩
    intro b hb
    rw [List.mem_singleton] at hb
    subst hb
    exact le_of_eq hkey

/-- Claim C10: with a valid id and date and no row for the key, a
clock-in carrying no time succeeds: it inserts and returns the row with
clock-in unset and status absent, rather than rejecting the missing
time. -/
theorem C10_absent_clock_in (dbC dbI : DB) (emp date : String)
    (hemp : employeeIdMatch emp = true) (hdate : isValidDate date = true)
    (hC : findKey dbC emp date = none) (hI : findKey dbI emp date = none) :
    clockInHandler dbC dbI emp date none
      = ⟨Except.ok ⟨emp, date, none, none, none, "absent"⟩,
         ⟨dbI.rows ++ [⟨emp, date, none, none, none, "absent"⟩]⟩, 2⟩ := by
  have hs : (findKey dbI emp date).isSome = false := by rw [hI]; rfl
  simp [clockInHandler, hemp, hdate, hC, hs, pgTimeOK, determineStatus, jsFalsy]

/-- Claim C10 (witness): on the empty table, `ATS0123 / 2024-03-01`
clocked in with no time yields the absent row. -/
theorem C10_absent_clock_in_witness :
    employeeIdMatch "ATS0123" = true
    ∧ isValidDate "2024-03-01" = true
    ∧ findKey emptyDB "ATS0123" "2024-03-01" = none
    ∧ clockInHandler emptyDB emptyDB "ATS0123" "2024-03-01" none
        = ⟨Except.ok ⟨"ATS0123", "2024-03-01", none, none, none, "absent"⟩,
           ⟨emptyDB.rows ++ [⟨"ATS0123", "2024-03-01", none, none, none,
               "absent"⟩]⟩, 2⟩ :=
  ⟨by decide, by decide, by decide,
    C10_absent_clock_in emptyDB emptyDB "ATS0123" "2024-03-01"
      (by decide) (by decide) (by decide) (by decide)⟩
